import Mathlib

/-!
Verification development for the fatigue-metric core of
`nhl_schedule_pressure_card.py` (schedule-pressure card generator).

The embedding below translates the core functions of the source —
`_team_abbrev`, `haversine_km`, `compute_team_loads` and its nested helpers
`count_games_for_team`, `travel_km_last_7_days`, `venue_latlon_for_game` —
into Lean.  Modelling conventions:

* Calendar dates are modelled as integers (`Int`).  The source keys its
  schedule dictionary by ISO `YYYY-MM-DD` strings produced by
  `date.isoformat()` and converts back with `date.fromisoformat`; since the
  ISO string order coincides with date order, an order-isomorphic integer
  day number is a faithful representation of both the dates and the string
  keys the code sorts.
* Python dictionaries become association lists (`List (key × value)`);
  `dict.get(k, default)` becomes `List.lookup` with a `getD` default.  A
  Python dict can never hold a duplicate key, so theorems that depend on
  key uniqueness take a `Nodup` hypothesis on the key list.
* Python floats become real numbers (`ℝ`).  The `None`-coordinate guard at
  the top of `haversine_km` (which yields `nan`) is unreachable in the
  modelled pipeline — venue pairs handed to it always come out of the arena
  lookup fully formed — so `haversine_km` is modelled on fully known real
  coordinates and the corresponding `math.isnan` filter in the travel sum,
  which can never fire, is dropped.
* `list.sort` / `sorted` (Python's stable sort) is modelled by a stable
  insertion sort `isortBy`; Python string comparison (lexicographic by code
  point) is modelled by `strLe`.
* Truthiness tests are modelled explicitly: a string is truthy iff it is
  nonempty, a dict (the arena lookup) is truthy iff it is present and
  nonempty, and a coordinate tuple is always truthy.
-/

/-- Model of uppercasing a single character, as Python `str.upper()` acts on
the ASCII range (team codes and the strings this program uppercases are
ASCII): `a`-`z` maps down by 32, everything else is unchanged. -/
def upChar (c : Char) : Char :=
  if 97 ≤ c.toNat ∧ c.toNat ≤ 122 then Char.ofNat (c.toNat - 32) else c

/-- Model of Python `str.upper()`: uppercase every character. -/
def pyUpper (s : String) : String :=
  String.mk (s.data.map upChar)

/-- Model of Python string `<=` (lexicographic by code point) on character
lists, used by `sorted`. -/
def charListLe : List Char → List Char → Bool
  | [], _ => true
  | _ :: _, [] => false
  | a :: as, b :: bs =>
    if a.toNat < b.toNat then true
    else if b.toNat < a.toNat then false
    else charListLe as bs

/-- Model of Python string `<=`. -/
def strLe (a b : String) : Bool := charListLe a.data b.data

/-- A team object as it appears in a game record: a dictionary whose
identifier-bearing keys are `abbrev`, `triCode`, `shortName`, `teamAbbrev`,
each possibly absent.  (`abbrev` is a Python attribute name in the source;
it is not an abbreviation command here.) -/
structure TeamObj where
  ab : Option String
  triCode : Option String
  shortName : Option String
  teamAbbrev : Option String
  deriving DecidableEq

/-- The team object `{}` used by `game.get("awayTeam") or {}` when the team
object is absent. -/
def emptyTeamObj : TeamObj := ⟨none, none, none, none⟩

/-- A game record: the away and home team objects (each possibly absent). -/
structure Game where
  awayTeam : Option TeamObj
  homeTeam : Option TeamObj
  deriving DecidableEq

/-- First truthy value in a list of optional strings (Python truthiness:
`None` and `""` are falsy). -/
def firstTruthy : List (Option String) → Option String
  | [] => none
  | o :: rest =>
    match o with
    | some s => if s = "" then firstTruthy rest else some s
    | none => firstTruthy rest

/-- `_team_abbrev(team_obj)`: return the uppercased first truthy value among
the keys `abbrev`, `triCode`, `shortName`, `teamAbbrev`, else `"UNK"`. -/
def teamAbbrevOf (t : TeamObj) : String :=
  match firstTruthy [t.ab, t.triCode, t.shortName, t.teamAbbrev] with
  | some s => pyUpper s
  | none => "UNK"

/-- Away-team identifier of a game: `_team_abbrev(g.get("awayTeam") or {})`. -/
def awayAb (g : Game) : String := teamAbbrevOf (g.awayTeam.getD emptyTeamObj)

/-- Home-team identifier of a game: `_team_abbrev(g.get("homeTeam") or {})`. -/
def homeAb (g : Game) : String := teamAbbrevOf (g.homeTeam.getD emptyTeamObj)

/-- `team in (a, h)` where `(a, h) = game_teams(gg)`. -/
def teamMatches (team : String) (g : Game) : Bool :=
  team == awayAb g || team == homeAb g

/-- The `schedules_by_date` dictionary: date → list of games that day. -/
abbrev ScheduleIndex := List (Int × List Game)

/-- `schedules_by_date.get(ds, [])`. -/
def lookupDate (idx : ScheduleIndex) (d : Int) : List Game :=
  (List.lookup d idx).getD []

/-- The days visited by `cur = start; while cur <= end: ...; cur += 1 day`:
all days from `s` to `e` inclusive (empty when `s > e`). -/
def dateRange (s e : Int) : List Int :=
  (List.range (e + 1 - s).toNat).map (fun (i : Nat) => s + (i : Int))

/-- `count_games_for_team(team, start, end)`: walk each calendar day of the
inclusive range and count the games that day in which `team` is the away or
home identifier. -/
def count_games_for_team (idx : ScheduleIndex) (team : String) (s e : Int) : Nat :=
  ((dateRange s e).map (fun d => (lookupDate idx d).countP (teamMatches team))).sum

/-- Stable insertion of `x` into `l`: `x` goes in front of the first element
`y` with `le x y`. -/
def insertLe (le : α → α → Bool) (x : α) : List α → List α
  | [] => [x]
  | y :: ys => if le x y then x :: y :: ys else y :: insertLe le x ys

/-- Stable insertion sort, modelling Python's stable `sorted` / `list.sort`. -/
def isortBy (le : α → α → Bool) : List α → List α
  | [] => []
  | x :: xs => insertLe le x (isortBy le xs)

/-- Boolean `≤` on integer dates (the comparison `sorted` uses on the
ISO-date string keys, which orders exactly like the dates themselves). -/
def intLe (a b : Int) : Bool := decide (a ≤ b)

/-- Comparison underlying `games_window.sort(key=lambda x: x[0])`. -/
def dateFstLe (p q : Int × Game) : Bool := decide (p.1 ≤ q.1)

/-- The `games_window` collection in `travel_km_last_7_days`: walk the
schedule keys in sorted order, keep the dates inside the inclusive window,
and collect `(date, game)` pairs whose game involves `team`. -/
def gamesInWindow (idx : ScheduleIndex) (team : String) (s e : Int) :
    List (Int × Game) :=
  (isortBy intLe (idx.map Prod.fst)).flatMap fun d =>
    if s ≤ d ∧ d ≤ e then
      (lookupDate idx d).filterMap fun g =>
        if teamMatches team g then some (d, g) else none
    else []

/-- The arena lookup `arenas_latlon`: `none` when no lookup is supplied,
otherwise an association list from team identifier to `(lat, lon)`. -/
abbrev ArenaLookup := Option (List (String × ℝ × ℝ))

/-- Python truthiness of `arenas_latlon`: falsy when absent or empty. -/
def arenasTruthy (ar : ArenaLookup) : Bool :=
  match ar with
  | none => false
  | some l => !l.isEmpty

/-- `venue_latlon_for_game(gg)`: `None` when the arena lookup is falsy, else
the lookup entry for the game's home team (possibly absent). -/
def venue_latlon_for_game (ar : ArenaLookup) (g : Game) : Option (ℝ × ℝ) :=
  if arenasTruthy ar then List.lookup (homeAb g) (ar.getD []) else none

/-- `games_window` after `games_window.sort(key=lambda x: x[0])`. -/
def sortedWindow (idx : ScheduleIndex) (team : String) (s e : Int) :
    List (Int × Game) :=
  isortBy dateFstLe (gamesInWindow idx team s e)

/-- The `venues` list: venue points of the window games in chronological
order, games whose venue does not resolve contributing nothing. -/
def venuesInWindow (idx : ScheduleIndex) (ar : ArenaLookup) (team : String)
    (s e : Int) : List (ℝ × ℝ) :=
  (sortedWindow idx team s e).filterMap fun p => venue_latlon_for_game ar p.2

/-- `math.radians`: degrees to radians. -/
noncomputable def radians (x : ℝ) : ℝ := x * (Real.pi / 180)

/-- Model of `math.atan2` on the reals (standard two-argument arctangent
conventions, matching CPython for every sign combination of finite
arguments, with `atan2 0 0 = 0`). -/
noncomputable def atan2 (y x : ℝ) : ℝ :=
  if 0 < x then Real.arctan (y / x)
  else if x < 0 then
    if 0 ≤ y then Real.arctan (y / x) + Real.pi else Real.arctan (y / x) - Real.pi
  else
    if 0 < y then Real.pi / 2 else if y < 0 then -(Real.pi / 2) else 0

/-- The haversine intermediate
`a = sin(dphi/2)**2 + cos(phi1)*cos(phi2)*sin(dlambda/2)**2`. -/
noncomputable def havA (lat1 lon1 lat2 lon2 : ℝ) : ℝ :=
  Real.sin (radians (lat2 - lat1) / 2) ^ 2 +
    Real.cos (radians lat1) * Real.cos (radians lat2) *
      Real.sin (radians (lon2 - lon1) / 2) ^ 2

/-- `haversine_km(lat1, lon1, lat2, lon2)` on fully known coordinates:
`R * c` with `R = 6371.0` and `c = 2 * atan2(sqrt(a), sqrt(1 - a))`. -/
noncomputable def haversine_km (lat1 lon1 lat2 lon2 : ℝ) : ℝ :=
  6371.0 *
    (2 * atan2 (Real.sqrt (havA lat1 lon1 lat2 lon2))
      (Real.sqrt (1 - havA lat1 lon1 lat2 lon2)))

/-- The travel accumulation: sum of `haversine_km` over each consecutive
pair `zip(venues[:-1], venues[1:])` of venue points, starting from `0.0`. -/
noncomputable def legSum (vs : List (ℝ × ℝ)) : ℝ :=
  ((vs.dropLast.zip vs.tail).map
    (fun pq => haversine_km pq.1.1 pq.1.2 pq.2.1 pq.2.2)).sum

/-- `travel_km_last_7_days(team)`: `None` when the arena lookup is falsy,
when fewer than 2 of the team's games lie in the trailing 7-day window
`[target - 6, target]`, or when fewer than 2 venue points resolve from
those games; otherwise the sum of consecutive leg distances. -/
noncomputable def travel_km_last_7_days (idx : ScheduleIndex) (ar : ArenaLookup)
    (target : Int) (team : String) : Option ℝ :=
  if !arenasTruthy ar then none
  else if (gamesInWindow idx team (target - 6) target).length < 2 then none
  else if (venuesInWindow idx ar team (target - 6) target).length < 2 then none
  else some (legSum (venuesInWindow idx ar team (target - 6) target))

/-- The per-team output record `TeamLoad`. -/
structure TeamLoad where
  team : String
  b2b : Bool
  g3in4 : Nat
  g4in6 : Nat
  travel_km : Option ℝ

/-- All away/home identifiers across the day's games, in order of
appearance (with repetitions). -/
def allAbbrevs (day_games : List Game) : List String :=
  day_games.flatMap fun g => [awayAb g, homeAb g]

/-- `sorted(teams_today)`: the distinct identifiers of today's teams in
Python string order.  (A Python set iterated through `sorted` is exactly a
duplicate-free sorted list; sorting makes the set's iteration order
irrelevant.) -/
def teamsToday (day_games : List Game) : List String :=
  isortBy strLe (allAbbrevs day_games).dedup

/-- `compute_team_loads(day_games, schedules_by_date, target_date,
arenas_latlon)`: one `TeamLoad` per team appearing today, keyed by team
identifier.  (The `today_game_by_team` dictionary built by the source is
never read afterwards and is omitted.) -/
noncomputable def compute_team_loads (day_games : List Game) (idx : ScheduleIndex)
    (target : Int) (ar : ArenaLookup) : List (String × TeamLoad) :=
  (teamsToday day_games).map fun t =>
    (t,
      { team := t
        b2b := decide (0 < count_games_for_team idx t (target - 1) (target - 1))
        g3in4 := count_games_for_team idx t (target - 3) target
        g4in6 := count_games_for_team idx t (target - 5) target
        travel_km := travel_km_last_7_days idx ar target t })

/-- Specification-style count of a team's games in an inclusive date range:
walk the index entries themselves and total the matching games of every
entry whose date lies in the range.  Used to state claims about "games in
the schedule index with dates in the window". -/
def specCount (idx : ScheduleIndex) (team : String) (s e : Int) : Nat :=
  (idx.map fun p =>
    if s ≤ p.1 ∧ p.1 ≤ e then p.2.countP (teamMatches team) else 0).sum

/-- A (possibly absent) team object with no truthy identifier field: none of
`abbrev`, `triCode`, `shortName`, `teamAbbrev` is a nonempty string. -/
def unidentifiable (o : Option TeamObj) : Prop :=
  match o with
  | none => True
  | some t =>
    (t.ab = none ∨ t.ab = some "") ∧
      (t.triCode = none ∨ t.triCode = some "") ∧
      (t.shortName = none ∨ t.shortName = some "") ∧
      (t.teamAbbrev = none ∨ t.teamAbbrev = some "")

/-! ### Helper lemmas: insertion sort -/

theorem perm_insertLe (le : α → α → Bool) (x : α) (l : List α) :
    List.Perm (insertLe le x l) (x :: l) := by
  induction l with
  | nil => simp [insertLe]
  | cons y ys ih =>
    simp only [insertLe]
    by_cases h : le x y = true
    · simp [h]
    · simp only [h, Bool.false_eq_true, if_false]
      exact (ih.cons y).trans (List.Perm.swap x y ys)

theorem perm_isortBy (le : α → α → Bool) (l : List α) :
    List.Perm (isortBy le l) l := by
  induction l with
  | nil => simp [isortBy]
  | cons x xs ih => exact (perm_insertLe le x (isortBy le xs)).trans (ih.cons x)

theorem mem_isortBy (le : α → α → Bool) (l : List α) (a : α) :
    a ∈ isortBy le l ↔ a ∈ l :=
  (perm_isortBy le l).mem_iff

theorem nodup_isortBy (le : α → α → Bool) (l : List α) (h : l.Nodup) :
    (isortBy le l).Nodup :=
  (perm_isortBy le l).nodup_iff.mpr h

theorem flatMap_insertLe (le : α → α → Bool) (x : α) (l : List α)
    (f : α → List β) (hx : f x = []) :
    (insertLe le x l).flatMap f = l.flatMap f := by
  induction l with
  | nil => simp [insertLe, hx]
  | cons y ys ih =>
    simp only [insertLe]
    by_cases h : le x y = true
    · simp [h, hx]
    · simp only [h, Bool.false_eq_true, if_false, List.flatMap_cons, ih]

/-! ### Helper lemmas: association-list lookups -/

theorem lookup_eq_none_of_not_mem [BEq α] [LawfulBEq α] {k : α}
    {l : List (α × β)} (h : k ∉ l.map Prod.fst) : List.lookup k l = none := by
  induction l with
  | nil => rfl
  | cons p rest ih =>
    obtain ⟨a, b⟩ := p
    simp only [List.map_cons, List.mem_cons] at h
    push_neg at h
    have hk : (k == a) = false := by simpa using h.1
    simp [List.lookup, hk, ih h.2]

theorem lookupDate_cons (d0 : Int) (gs : List Game) (idx : ScheduleIndex)
    (q : Int) :
    lookupDate ((d0, gs) :: idx) q = if q = d0 then gs else lookupDate idx q := by
  by_cases h : q = d0
  · simp [lookupDate, List.lookup, h]
  · have hq : (q == d0) = false := by simpa using h
    simp [lookupDate, List.lookup, hq, h]

theorem lookupDate_eq_nil_of_not_mem {idx : ScheduleIndex} {d : Int}
    (h : d ∉ idx.map Prod.fst) : lookupDate idx d = [] := by
  simp [lookupDate, lookup_eq_none_of_not_mem h]

/-! ### Helper lemmas: date ranges -/

theorem mem_dateRange {s e d : Int} : d ∈ dateRange s e ↔ s ≤ d ∧ d ≤ e := by
  simp only [dateRange, List.mem_map, List.mem_range]
  constructor
  · rintro ⟨i, hi, rfl⟩
    omega
  · intro h
    exact ⟨(d - s).toNat, by omega, by omega⟩

theorem nodup_dateRange (s e : Int) : (dateRange s e).Nodup := by
  refine List.Nodup.map ?_ (List.nodup_range _)
  intro a b h
  have h2 : s + (a : Int) = s + (b : Int) := h
  omega

theorem dateRange_eq_nil {s e : Int} (h : e < s) : dateRange s e = [] := by
  unfold dateRange
  have h0 : (e + 1 - s).toNat = 0 := by omega
  rw [h0]
  rfl

/-! ### Helper lemmas: sums of natural numbers over lists -/

theorem sum_map_ite_mem {l : List Int} (hl : l.Nodup) (d : Int) (c : Nat) :
    (l.map fun x => if x = d then c else 0).sum = if d ∈ l then c else 0 := by
  induction l with
  | nil => simp
  | cons a t ih =>
    simp only [List.nodup_cons] at hl
    simp only [List.map_cons, List.sum_cons, ih hl.2, List.mem_cons]
    by_cases h : a = d
    · subst h
      simp [hl.1]
    · have h2 : ¬d = a := fun hda => h hda.symm
      simp [h, h2]

theorem sum_map_pos_iff {l : List α} {F : α → Nat} :
    0 < (l.map F).sum ↔ ∃ a ∈ l, 0 < F a := by
  induction l with
  | nil => simp
  | cons a t ih =>
    simp only [List.map_cons, List.sum_cons, List.mem_cons]
    constructor
    · intro h
      by_cases ha : 0 < F a
      · exact ⟨a, Or.inl rfl, ha⟩
      · have : 0 < (t.map F).sum := by omega
        obtain ⟨b, hb, hFb⟩ := ih.mp this
        exact ⟨b, Or.inr hb, hFb⟩
    · rintro ⟨b, hb | hb, hFb⟩
      · subst hb
        omega
      · have := ih.mpr ⟨b, hb, hFb⟩
        omega

/-! ### Counting games: the day-walking counter equals the entry-walking
specification count -/

theorem countP_lookupDate_cons (d0 : Int) (gs : List Game)
    (idx : ScheduleIndex) (team : String) (q : Int)
    (hd : d0 ∉ idx.map Prod.fst) :
    (lookupDate ((d0, gs) :: idx) q).countP (teamMatches team) =
      (if q = d0 then gs.countP (teamMatches team) else 0) +
        (lookupDate idx q).countP (teamMatches team) := by
  rw [lookupDate_cons]
  by_cases h : q = d0
  · subst h
    simp [lookupDate_eq_nil_of_not_mem hd]
  · simp [h]

theorem count_eq_specCount (idx : ScheduleIndex) (team : String) (s e : Int)
    (hn : (idx.map Prod.fst).Nodup) :
    count_games_for_team idx team s e = specCount idx team s e := by
  induction idx with
  | nil =>
    simp [count_games_for_team, specCount, lookupDate, List.lookup]
  | cons p rest ih =>
    obtain ⟨d0, gs⟩ := p
    simp only [List.map_cons, List.nodup_cons] at hn
    obtain ⟨hd, ht⟩ := hn
    unfold count_games_for_team
    rw [List.map_congr_left
      (fun d _ => countP_lookupDate_cons d0 gs rest team d hd)]
    rw [List.sum_map_add, sum_map_ite_mem (nodup_dateRange s e) d0]
    have hrest : (List.map
        (fun d => (lookupDate rest d).countP (teamMatches team))
        (dateRange s e)).sum = specCount rest team s e := ih ht
    rw [hrest]
    simp only [specCount, List.map_cons, List.sum_cons, mem_dateRange]

theorem length_filterMap_ite (gs : List Game) (team : String) (d : Int) :
    (gs.filterMap fun g =>
      if teamMatches team g then some (d, g) else none).length =
      gs.countP (teamMatches team) := by
  induction gs with
  | nil => rfl
  | cons g t ih =>
    by_cases h : teamMatches team g = true
    · simp [List.filterMap_cons, h, ih, List.countP_cons]
    · simp [List.filterMap_cons, h, ih, List.countP_cons]

theorem sum_keys_lookup (idx : ScheduleIndex) (F : Int → List Game → Nat)
    (hn : (idx.map Prod.fst).Nodup) :
    ((idx.map Prod.fst).map (fun d => F d (lookupDate idx d))).sum =
      (idx.map (fun p => F p.1 p.2)).sum := by
  induction idx with
  | nil => rfl
  | cons p rest ih =>
    obtain ⟨d0, gs⟩ := p
    simp only [List.map_cons, List.nodup_cons] at hn
    obtain ⟨hd, ht⟩ := hn
    simp only [List.map_cons, List.sum_cons]
    have hhead : lookupDate ((d0, gs) :: rest) d0 = gs := by
      rw [lookupDate_cons]
      simp
    have htail :
        List.map (fun d => F d (lookupDate ((d0, gs) :: rest) d))
          (rest.map Prod.fst) =
        List.map (fun d => F d (lookupDate rest d)) (rest.map Prod.fst) := by
      refine List.map_congr_left ?_
      intro d hdmem
      have hne : d ≠ d0 := fun hdd => hd (hdd ▸ hdmem)
      rw [lookupDate_cons]
      simp [hne]
    rw [hhead, htail, ih ht]

theorem windowLen_eq_specCount (idx : ScheduleIndex) (team : String)
    (s e : Int) (hn : (idx.map Prod.fst).Nodup) :
    (gamesInWindow idx team s e).length = specCount idx team s e := by
  unfold gamesInWindow
  rw [List.length_flatMap]
  rw [((perm_isortBy intLe (idx.map Prod.fst)).map _).sum_eq]
  have hpt : ∀ d : Int,
      (List.length ∘ fun d =>
        if s ≤ d ∧ d ≤ e then
          (lookupDate idx d).filterMap fun g =>
            if teamMatches team g then some (d, g) else none
        else []) d =
      (if s ≤ d ∧ d ≤ e then
        (lookupDate idx d).countP (teamMatches team) else 0) := by
    intro d
    by_cases h : s ≤ d ∧ d ≤ e
    · simp [h, length_filterMap_ite]
    · simp [h]
  rw [List.map_congr_left (fun d _ => hpt d)]
  exact sum_keys_lookup idx
    (fun d gs => if s ≤ d ∧ d ≤ e then gs.countP (teamMatches team) else 0) hn

/-! ### Geo distance lemmas -/

theorem atan2_nonneg {y x : ℝ} (hy : 0 ≤ y) (hx : 0 ≤ x) : 0 ≤ atan2 y x := by
  unfold atan2
  by_cases h1 : 0 < x
  · simp only [h1, if_true]
    have : Real.arctan 0 ≤ Real.arctan (y / x) :=
      Real.arctan_strictMono.monotone (div_nonneg hy h1.le)
    rwa [Real.arctan_zero] at this
  · have hx0 : x = 0 := le_antisymm (not_lt.mp h1) hx
    subst hx0
    simp only [h1, if_false, lt_irrefl, not_lt.mpr hy]
    by_cases h2 : 0 < y
    · simp only [h2, if_true]
      positivity
    · simp [h2, not_lt.mp h2, not_lt_of_le hy]

theorem haversine_km_nonneg (lat1 lon1 lat2 lon2 : ℝ) :
    0 ≤ haversine_km lat1 lon1 lat2 lon2 := by
  unfold haversine_km
  have h := atan2_nonneg (Real.sqrt_nonneg (havA lat1 lon1 lat2 lon2))
    (Real.sqrt_nonneg (1 - havA lat1 lon1 lat2 lon2))
  positivity

theorem havA_symm (lat1 lon1 lat2 lon2 : ℝ) :
    havA lat1 lon1 lat2 lon2 = havA lat2 lon2 lat1 lon1 := by
  unfold havA radians
  have h1 : (lat1 - lat2) * (Real.pi / 180) / 2 =
      -((lat2 - lat1) * (Real.pi / 180) / 2) := by ring
  have h2 : (lon1 - lon2) * (Real.pi / 180) / 2 =
      -((lon2 - lon1) * (Real.pi / 180) / 2) := by ring
  rw [h1, h2, Real.sin_neg, Real.sin_neg]
  ring

theorem haversine_km_symm (lat1 lon1 lat2 lon2 : ℝ) :
    haversine_km lat1 lon1 lat2 lon2 = haversine_km lat2 lon2 lat1 lon1 := by
  unfold haversine_km
  rw [havA_symm lat2 lon2 lat1 lon1]

theorem havA_self (lat lon : ℝ) : havA lat lon lat lon = 0 := by
  unfold havA radians
  simp

theorem haversine_km_self (lat lon : ℝ) : haversine_km lat lon lat lon = 0 := by
  unfold haversine_km
  rw [havA_self]
  rw [show (1 : ℝ) - 0 = 1 by ring, Real.sqrt_zero, Real.sqrt_one]
  unfold atan2
  norm_num

theorem legSum_nonneg (vs : List (ℝ × ℝ)) : 0 ≤ legSum vs := by
  unfold legSum
  refine List.sum_nonneg ?_
  intro x hx
  obtain ⟨pq, _, rfl⟩ := List.mem_map.mp hx
  exact haversine_km_nonneg pq.1.1 pq.1.2 pq.2.1 pq.2.2

/-! ### Uppercasing lemmas -/

theorem toNat_ofNat_shift (n : Nat) (h1 : 97 ≤ n) (h2 : n ≤ 122) :
    (Char.ofNat (n - 32)).toNat = n - 32 := by
  interval_cases n <;> decide

theorem upChar_idem (c : Char) : upChar (upChar c) = upChar c := by
  by_cases h : 97 ≤ c.toNat ∧ c.toNat ≤ 122
  · have h3 := toNat_ofNat_shift c.toNat h.1 h.2
    simp only [upChar, if_pos h]
    rw [if_neg]
    rw [h3]
    omega
  · simp only [upChar, if_neg h]

theorem pyUpper_idem (s : String) : pyUpper (pyUpper s) = pyUpper s := by
  unfold pyUpper
  simp only [String.data]
  rw [List.map_map]
  exact congrArg String.mk
    (List.map_congr_left fun c _ => upChar_idem c)

theorem pyUpper_teamAbbrevOf (t : TeamObj) :
    pyUpper (teamAbbrevOf t) = teamAbbrevOf t := by
  unfold teamAbbrevOf
  cases firstTruthy [t.ab, t.triCode, t.shortName, t.teamAbbrev] with
  | none => decide
  | some s => exact pyUpper_idem s

/-! ### Sortedness of the window sort -/

theorem mem_insertLe (le : α → α → Bool) (x : α) (l : List α) (a : α) :
    a ∈ insertLe le x l ↔ a = x ∨ a ∈ l := by
  rw [(perm_insertLe le x l).mem_iff]
  simp

theorem pairwise_insertLe_dateFstLe (x : Int × Game) (l : List (Int × Game))
    (hl : l.Pairwise (fun p q => p.1 ≤ q.1)) :
    (insertLe dateFstLe x l).Pairwise (fun p q => p.1 ≤ q.1) := by
  induction l with
  | nil => simp [insertLe]
  | cons y ys ih =>
    rcases List.pairwise_cons.mp hl with ⟨hy, hys⟩
    simp only [insertLe]
    by_cases h : dateFstLe x y = true
    · have hxy : x.1 ≤ y.1 := by
        simpa [dateFstLe] using h
      simp only [h, if_true]
      refine List.pairwise_cons.mpr ⟨?_, hl⟩
      intro z hz
      rcases List.mem_cons.mp hz with rfl | hz
      · exact hxy
      · exact le_trans hxy (hy z hz)
    · have hyx : y.1 ≤ x.1 := by
        have := h
        simp only [dateFstLe, decide_eq_true_eq] at this
        omega
      simp only [h, Bool.false_eq_true, if_false]
      refine List.pairwise_cons.mpr ⟨?_, ih hys⟩
      intro z hz
      rcases (mem_insertLe dateFstLe x ys z).mp hz with rfl | hz
      · exact hyx
      · exact hy z hz

theorem pairwise_sortedWindow (idx : ScheduleIndex) (team : String)
    (s e : Int) :
    (sortedWindow idx team s e).Pairwise (fun p q => p.1 ≤ q.1) := by
  unfold sortedWindow
  generalize gamesInWindow idx team s e = l
  induction l with
  | nil => simp [isortBy]
  | cons x xs ih => exact pairwise_insertLe_dateFstLe x (isortBy dateFstLe xs) ih

/-! ### Output-map lookup lemmas -/

theorem lookup_map_pair (ts : List String) (F : String → TeamLoad)
    (t : String) (h : t ∈ ts) :
    List.lookup t (ts.map fun s => (s, F s)) = some (F t) := by
  induction ts with
  | nil => cases h
  | cons a rest ih =>
    rcases List.mem_cons.mp h with rfl | hmem
    · simp [List.lookup]
    · by_cases hta : t = a
      · subst hta
        simp [List.lookup]
      · have hq : (t == a) = false := by simpa using hta
        simp [List.lookup, hq, ih hmem]

theorem lookup_some_mem_keys [BEq α] [LawfulBEq α] {k : α}
    {l : List (α × β)} {v : β} (h : List.lookup k l = some v) :
    k ∈ l.map Prod.fst := by
  induction l with
  | nil => cases h
  | cons p rest ih =>
    obtain ⟨a, b⟩ := p
    by_cases hk : k = a
    · simp [hk]
    · have hq : (k == a) = false := by simpa using hk
      simp only [List.lookup, hq] at h
      simp [ih h]

theorem mem_teamsToday (dg : List Game) (t : String) :
    t ∈ teamsToday dg ↔ t ∈ allAbbrevs dg := by
  unfold teamsToday
  rw [mem_isortBy, List.mem_dedup]

theorem keys_compute_team_loads (dg : List Game) (idx : ScheduleIndex)
    (target : Int) (ar : ArenaLookup) :
    (compute_team_loads dg idx target ar).map Prod.fst = teamsToday dg := by
  unfold compute_team_loads
  rw [List.map_map]
  exact List.map_id _

/-! ### Bridging lemmas for the claim theorems -/

theorem lookup_compute_team_loads (dg : List Game) (idx : ScheduleIndex)
    (target : Int) (ar : ArenaLookup) (t : String) (ht : t ∈ allAbbrevs dg) :
    List.lookup t (compute_team_loads dg idx target ar) =
      some
        { team := t
          b2b := decide (0 < count_games_for_team idx t (target - 1) (target - 1))
          g3in4 := count_games_for_team idx t (target - 3) target
          g4in6 := count_games_for_team idx t (target - 5) target
          travel_km := travel_km_last_7_days idx ar target t } :=
  lookup_map_pair (teamsToday dg) _ t ((mem_teamsToday dg t).mpr ht)

theorem specCount_pos_iff (idx : ScheduleIndex) (team : String) (s e : Int) :
    0 < specCount idx team s e ↔
      ∃ p ∈ idx, (s ≤ p.1 ∧ p.1 ≤ e) ∧ ∃ g ∈ p.2, teamMatches team g = true := by
  unfold specCount
  rw [sum_map_pos_iff]
  constructor
  · rintro ⟨p, hp, hpos⟩
    by_cases h : s ≤ p.1 ∧ p.1 ≤ e
    · rw [if_pos h] at hpos
      obtain ⟨g, hg, hm⟩ := List.countP_pos_iff.mp hpos
      exact ⟨p, hp, h, g, hg, hm⟩
    · rw [if_neg h] at hpos
      omega
  · rintro ⟨p, hp, h, g, hg, hm⟩
    refine ⟨p, hp, ?_⟩
    rw [if_pos h]
    exact List.countP_pos_iff.mpr ⟨g, hg, hm⟩

theorem venuesInWindow_of_not_truthy (idx : ScheduleIndex) (ar : ArenaLookup)
    (team : String) (s e : Int) (h : arenasTruthy ar = false) :
    venuesInWindow idx ar team s e = [] := by
  unfold venuesInWindow venue_latlon_for_game
  rw [h]
  simp

theorem travel_none_iff (idx : ScheduleIndex) (ar : ArenaLookup)
    (target : Int) (t : String) :
    travel_km_last_7_days idx ar target t = none ↔
      (ar = none ∨ (gamesInWindow idx t (target - 6) target).length < 2 ∨
        (venuesInWindow idx ar t (target - 6) target).length < 2) := by
  unfold travel_km_last_7_days
  by_cases h1 : arenasTruthy ar = true
  · rw [h1]
    simp only [Bool.not_true, Bool.false_eq_true, if_false]
    have hne : ar ≠ none := by
      intro h
      rw [h] at h1
      exact absurd h1 (by decide)
    by_cases h2 : (gamesInWindow idx t (target - 6) target).length < 2
    · simp [h2]
    · by_cases h3 : (venuesInWindow idx ar t (target - 6) target).length < 2
      · simp [h2, h3]
      · simp [h2, h3, hne]
  · have h1f : arenasTruthy ar = false := by
      cases harena : arenasTruthy ar
      · rfl
      · exact absurd harena h1
    rw [h1f]
    simp only [Bool.not_false, if_true, true_iff]
    cases ar with
    | none => exact Or.inl rfl
    | some l =>
      refine Or.inr (Or.inr ?_)
      rw [venuesInWindow_of_not_truthy idx (some l) t (target - 6) target h1f]
      simp

/-! ### Claim theorems -/

/-- Claim C9: for every fully known coordinate pair, the distance from a
point to itself is `0.0`, and `haversine_km` is symmetric in its two
points. -/
theorem claim9_distance_zero_and_symm (lat lon lat1 lon1 lat2 lon2 : ℝ) :
    haversine_km lat lon lat lon = 0 ∧
      haversine_km lat1 lon1 lat2 lon2 = haversine_km lat2 lon2 lat1 lon1 :=
  ⟨haversine_km_self lat lon, haversine_km_symm lat1 lon1 lat2 lon2⟩

/-- Claim C6, counterexample: with a malformed range (start `5` strictly
after end `3`) and a schedule that does contain a TOR game, the counter
silently returns the number `0` — it does not fail loudly.  (The claim
asserts a clear error or panic; the function is total and yields a
number.) -/
theorem claim6_counterexample :
    count_games_for_team
      [(4, [⟨some ⟨some "TOR", none, none, none⟩,
             some ⟨some "MTL", none, none, none⟩⟩])] "TOR" 5 3 = 0 := by
  decide

/-- Claim C6, amended: for every team and every date range with start
strictly after end, the day-walking counter silently returns 0 (the count
over an empty day range) rather than raising any error. -/
theorem claim6_amended (idx : ScheduleIndex) (team : String) (s e : Int)
    (h : e < s) :
    count_games_for_team idx team s e = 0 := by
  unfold count_games_for_team
  rw [dateRange_eq_nil h]
  rfl

/-- Witness for the amended Claim C6 at a concrete input. -/
theorem claim6_amended_witness :
    count_games_for_team [] "TOR" 5 3 = 0 :=
  claim6_amended [] "TOR" 5 3 (by decide)

/-- Claim C7: a date that is absent from the schedule index, or present
with an empty game list, contributes zero games: prepending an
empty-game-list entry for a previously absent date changes neither the
day-walking count nor the travel-window collection, and both remain
defined (no error). -/
theorem claim7_empty_date_contributes_zero (idx : ScheduleIndex)
    (team : String) (s e d : Int) (hd : d ∉ idx.map Prod.fst) :
    count_games_for_team ((d, []) :: idx) team s e =
        count_games_for_team idx team s e ∧
      gamesInWindow ((d, []) :: idx) team s e = gamesInWindow idx team s e := by
  have hlook : ∀ q, lookupDate ((d, []) :: idx) q = lookupDate idx q := by
    intro q
    rw [lookupDate_cons]
    by_cases h : q = d
    · subst h
      rw [if_pos rfl, lookupDate_eq_nil_of_not_mem hd]
    · rw [if_neg h]
  constructor
  · unfold count_games_for_team
    exact congrArg List.sum (List.map_congr_left (fun q _ => by rw [hlook q]))
  · unfold gamesInWindow
    have hkeys : ((d, ([] : List Game)) :: idx).map Prod.fst =
        d :: idx.map Prod.fst := rfl
    rw [hkeys]
    have hsort : isortBy intLe (d :: idx.map Prod.fst) =
        insertLe intLe d (isortBy intLe (idx.map Prod.fst)) := rfl
    rw [hsort]
    have hf : (fun d' => if s ≤ d' ∧ d' ≤ e then
          (lookupDate ((d, []) :: idx) d').filterMap
            (fun g => if teamMatches team g then some (d', g) else none)
        else []) =
        (fun d' => if s ≤ d' ∧ d' ≤ e then
          (lookupDate idx d').filterMap
            (fun g => if teamMatches team g then some (d', g) else none)
        else []) := by
      funext q
      rw [hlook q]
    rw [hf]
    apply flatMap_insertLe
    by_cases h : s ≤ d ∧ d ≤ e
    · simp [h, lookupDate_eq_nil_of_not_mem hd]
    · simp [h]

/-- Witness for Claim C7 at a concrete input: adding day `3` with no games
next to a schedule holding one TOR game on day `5`. -/
theorem claim7_witness :
    count_games_for_team
        ((3, []) :: [(5, [⟨some ⟨some "TOR", none, none, none⟩,
          some ⟨some "MTL", none, none, none⟩⟩])]) "TOR" 1 6 =
      count_games_for_team
        [(5, [⟨some ⟨some "TOR", none, none, none⟩,
          some ⟨some "MTL", none, none, none⟩⟩])] "TOR" 1 6 ∧
    gamesInWindow
        ((3, []) :: [(5, [⟨some ⟨some "TOR", none, none, none⟩,
          some ⟨some "MTL", none, none, none⟩⟩])]) "TOR" 1 6 =
      gamesInWindow
        [(5, [⟨some ⟨some "TOR", none, none, none⟩,
          some ⟨some "MTL", none, none, none⟩⟩])] "TOR" 1 6 :=
  claim7_empty_date_contributes_zero
    [(5, [⟨some ⟨some "TOR", none, none, none⟩,
      some ⟨some "MTL", none, none, none⟩⟩])] "TOR" 1 6 3 (by decide)

/-- Claim C8: over the same duplicate-free schedule index, the day-walking
counter `count_games_for_team` and the key-walking window collector of
`travel_km_last_7_days` agree: the count equals the length of the collected
`(date, game)` window. -/
theorem claim8_count_eq_window_length (idx : ScheduleIndex) (team : String)
    (s e : Int) (hn : (idx.map Prod.fst).Nodup) :
    count_games_for_team idx team s e = (gamesInWindow idx team s e).length :=
  (count_eq_specCount idx team s e hn).trans
    (windowLen_eq_specCount idx team s e hn).symm

/-- Witness for Claim C8 at a concrete input: two TOR games on days 5 and 7
of a window from 4 to 10. -/
theorem claim8_witness :
    count_games_for_team
        [(5, [⟨some ⟨some "TOR", none, none, none⟩,
              some ⟨some "MTL", none, none, none⟩⟩]),
         (7, [⟨some ⟨some "MTL", none, none, none⟩,
              some ⟨some "TOR", none, none, none⟩⟩])] "TOR" 4 10 =
      (gamesInWindow
        [(5, [⟨some ⟨some "TOR", none, none, none⟩,
              some ⟨some "MTL", none, none, none⟩⟩]),
         (7, [⟨some ⟨some "MTL", none, none, none⟩,
              some ⟨some "TOR", none, none, none⟩⟩])] "TOR" 4 10).length :=
  claim8_count_eq_window_length _ "TOR" 4 10 (by decide)

/-- Claim C3: for every team in today's games, the `g3in4` field equals the
count of index games involving the team with dates in
`[target - 3, target]`, and `g4in6` the analogous count over
`[target - 5, target]` — raw counts over the schedule index, not
booleans. -/
theorem claim3_window_counts (dg : List Game) (idx : ScheduleIndex)
    (target : Int) (ar : ArenaLookup) (t : String)
    (hn : (idx.map Prod.fst).Nodup) (ht : t ∈ allAbbrevs dg) :
    (List.lookup t (compute_team_loads dg idx target ar)).map TeamLoad.g3in4 =
        some (specCount idx t (target - 3) target) ∧
      (List.lookup t (compute_team_loads dg idx target ar)).map TeamLoad.g4in6 =
        some (specCount idx t (target - 5) target) := by
  rw [lookup_compute_team_loads dg idx target ar t ht]
  exact ⟨congrArg some (count_eq_specCount idx t (target - 3) target hn),
    congrArg some (count_eq_specCount idx t (target - 5) target hn)⟩

/-- Witness for Claim C3 at a concrete input: five TOR games on days 5, 7,
8, 9, 10 with target day 10 give a 3-in-4 count of 4 (exceeding 3) and a
4-in-6 count of 5 (exceeding 4). -/
theorem claim3_witness :
    (List.lookup "TOR" (compute_team_loads
        [⟨some ⟨some "TOR", none, none, none⟩,
          some ⟨some "MTL", none, none, none⟩⟩]
        [(5, [⟨some ⟨some "TOR", none, none, none⟩,
              some ⟨some "MTL", none, none, none⟩⟩]),
         (7, [⟨some ⟨some "TOR", none, none, none⟩,
              some ⟨some "MTL", none, none, none⟩⟩]),
         (8, [⟨some ⟨some "TOR", none, none, none⟩,
              some ⟨some "MTL", none, none, none⟩⟩]),
         (9, [⟨some ⟨some "TOR", none, none, none⟩,
              some ⟨some "MTL", none, none, none⟩⟩]),
         (10, [⟨some ⟨some "TOR", none, none, none⟩,
              some ⟨some "MTL", none, none, none⟩⟩])]
        10 none)).map TeamLoad.g3in4 = some 4 ∧
    (List.lookup "TOR" (compute_team_loads
        [⟨some ⟨some "TOR", none, none, none⟩,
          some ⟨some "MTL", none, none, none⟩⟩]
        [(5, [⟨some ⟨some "TOR", none, none, none⟩,
              some ⟨some "MTL", none, none, none⟩⟩]),
         (7, [⟨some ⟨some "TOR", none, none, none⟩,
              some ⟨some "MTL", none, none, none⟩⟩]),
         (8, [⟨some ⟨some "TOR", none, none, none⟩,
              some ⟨some "MTL", none, none, none⟩⟩]),
         (9, [⟨some ⟨some "TOR", none, none, none⟩,
              some ⟨some "MTL", none, none, none⟩⟩]),
         (10, [⟨some ⟨some "TOR", none, none, none⟩,
              some ⟨some "MTL", none, none, none⟩⟩])]
        10 none)).map TeamLoad.g4in6 = some 5 := by
  have h := claim3_window_counts
    [⟨some ⟨some "TOR", none, none, none⟩,
      some ⟨some "MTL", none, none, none⟩⟩]
    [(5, [⟨some ⟨some "TOR", none, none, none⟩,
          some ⟨some "MTL", none, none, none⟩⟩]),
     (7, [⟨some ⟨some "TOR", none, none, none⟩,
          some ⟨some "MTL", none, none, none⟩⟩]),
     (8, [⟨some ⟨some "TOR", none, none, none⟩,
          some ⟨some "MTL", none, none, none⟩⟩]),
     (9, [⟨some ⟨some "TOR", none, none, none⟩,
          some ⟨some "MTL", none, none, none⟩⟩]),
     (10, [⟨some ⟨some "TOR", none, none, none⟩,
          some ⟨some "MTL", none, none, none⟩⟩])]
    10 none "TOR" (by decide) (by decide)
  exact ⟨h.1.trans (by decide), h.2.trans (by decide)⟩

/-- Claim C4: for every team in today's games, the `b2b` field is `true`
exactly when the schedule index holds at least one game dated exactly
`target - 1` in which the team is the away or home identifier. -/
theorem claim4_b2b_iff (dg : List Game) (idx : ScheduleIndex) (target : Int)
    (ar : ArenaLookup) (t : String) (hn : (idx.map Prod.fst).Nodup)
    (ht : t ∈ allAbbrevs dg) :
    (List.lookup t (compute_team_loads dg idx target ar)).map TeamLoad.b2b =
        some true ↔
      ∃ p ∈ idx, p.1 = target - 1 ∧ ∃ g ∈ p.2, teamMatches t g = true := by
  have hiff :
      (List.lookup t (compute_team_loads dg idx target ar)).map TeamLoad.b2b =
        some true ↔
      0 < count_games_for_team idx t (target - 1) (target - 1) := by
    rw [lookup_compute_team_loads dg idx target ar t ht]
    simp
  rw [hiff, count_eq_specCount idx t (target - 1) (target - 1) hn,
    specCount_pos_iff]
  constructor
  · rintro ⟨p, hp, hrange, g, hg, hm⟩
    exact ⟨p, hp, by omega, g, hg, hm⟩
  · rintro ⟨p, hp, heq, g, hg, hm⟩
    exact ⟨p, hp, by omega, g, hg, hm⟩

/-- Witness for Claim C4 at a concrete input: MTL at TOR on day 9 makes
TOR's back-to-back flag true on target day 10. -/
theorem claim4_witness :
    (List.lookup "TOR" (compute_team_loads
        [⟨some ⟨some "TOR", none, none, none⟩,
          some ⟨some "MTL", none, none, none⟩⟩]
        [(9, [⟨some ⟨some "MTL", none, none, none⟩,
              some ⟨some "TOR", none, none, none⟩⟩])]
        10 none)).map TeamLoad.b2b = some true :=
  (claim4_b2b_iff
    [⟨some ⟨some "TOR", none, none, none⟩,
      some ⟨some "MTL", none, none, none⟩⟩]
    [(9, [⟨some ⟨some "MTL", none, none, none⟩,
          some ⟨some "TOR", none, none, none⟩⟩])]
    10 none "TOR" (by decide) (by decide)).mpr
    ⟨(9, [⟨some ⟨some "MTL", none, none, none⟩,
          some ⟨some "TOR", none, none, none⟩⟩]),
      by decide, by decide,
      ⟨some ⟨some "MTL", none, none, none⟩,
        some ⟨some "TOR", none, none, none⟩⟩,
      by decide, by decide⟩

/-- Claim C5: `compute_team_loads` always returns, its key set is exactly
the away/home identifiers across today's games, and every such key maps to
a fully populated `TeamLoad` carrying that team identifier — gaps in the
inputs never yield a missing or partial entry. -/
theorem claim5_total_complete (dg : List Game) (idx : ScheduleIndex)
    (target : Int) (ar : ArenaLookup) :
    (∀ t, (List.lookup t (compute_team_loads dg idx target ar)).isSome = true ↔
        t ∈ allAbbrevs dg) ∧
      (∀ t, t ∈ allAbbrevs dg →
        ∃ ld, List.lookup t (compute_team_loads dg idx target ar) = some ld ∧
          ld.team = t) := by
  constructor
  · intro t
    constructor
    · intro h
      obtain ⟨v, hv⟩ := Option.isSome_iff_exists.mp h
      have hk := lookup_some_mem_keys hv
      rw [keys_compute_team_loads] at hk
      exact (mem_teamsToday dg t).mp hk
    · intro h
      rw [lookup_compute_team_loads dg idx target ar t h]
      rfl
  · intro t h
    exact ⟨_, lookup_compute_team_loads dg idx target ar t h, rfl⟩

/-- Witness for Claim C5 at a concrete input. -/
theorem claim5_witness :
    ∃ ld, List.lookup "MTL" (compute_team_loads
        [⟨some ⟨some "TOR", none, none, none⟩,
          some ⟨some "MTL", none, none, none⟩⟩] [] 0 none) = some ld ∧
      ld.team = "MTL" :=
  (claim5_total_complete
    [⟨some ⟨some "TOR", none, none, none⟩,
      some ⟨some "MTL", none, none, none⟩⟩] [] 0 none).2 "MTL" (by decide)

theorem teamAbbrevOf_unidentifiable (o : Option TeamObj)
    (ho : unidentifiable o) :
    teamAbbrevOf (o.getD emptyTeamObj) = "UNK" := by
  cases o with
  | none => decide
  | some tobj =>
    obtain ⟨h1, h2, h3, h4⟩ := ho
    show teamAbbrevOf tobj = "UNK"
    unfold teamAbbrevOf
    have hft : firstTruthy
        [tobj.ab, tobj.triCode, tobj.shortName, tobj.teamAbbrev] = none := by
      rcases h1 with h1 | h1 <;> rcases h2 with h2 | h2 <;>
        rcases h3 with h3 | h3 <;> rcases h4 with h4 | h4 <;>
          simp [firstTruthy, h1, h2, h3, h4]
    rw [hft]

theorem keys_compute_nodup (dg : List Game) (idx : ScheduleIndex)
    (target : Int) (ar : ArenaLookup) :
    ((compute_team_loads dg idx target ar).map Prod.fst).Nodup := by
  rw [keys_compute_team_loads]
  exact nodup_isortBy strLe _ (List.nodup_dedup _)

/-- Claim C10: a team object that is absent or has no truthy identifier
field resolves to the sentinel `"UNK"`; the output keys are duplicate-free,
so all unidentifiable teams collapse into the single `"UNK"` entry (count
exactly 1 when one of today's games has an unidentifiable away team); and
every output key is uppercase (fixed by `pyUpper`). -/
theorem claim10_unk_collapse_upper :
    (∀ o : Option TeamObj, unidentifiable o →
        teamAbbrevOf (o.getD emptyTeamObj) = "UNK") ∧
      (∀ (dg : List Game) (idx : ScheduleIndex) (target : Int)
          (ar : ArenaLookup),
        ((compute_team_loads dg idx target ar).map Prod.fst).Nodup) ∧
      (∀ (dg : List Game) (idx : ScheduleIndex) (target : Int)
          (ar : ArenaLookup) (g : Game), g ∈ dg → unidentifiable g.awayTeam →
        ((compute_team_loads dg idx target ar).map Prod.fst).count "UNK" = 1) ∧
      (∀ (dg : List Game) (idx : ScheduleIndex) (target : Int)
          (ar : ArenaLookup) (t : String),
        t ∈ (compute_team_loads dg idx target ar).map Prod.fst →
        pyUpper t = t) := by
  refine ⟨teamAbbrevOf_unidentifiable, keys_compute_nodup, ?_, ?_⟩
  · intro dg idx target ar g hg hga
    have hub : awayAb g = "UNK" := teamAbbrevOf_unidentifiable g.awayTeam hga
    have hmemU : "UNK" ∈ (compute_team_loads dg idx target ar).map Prod.fst := by
      rw [keys_compute_team_loads]
      refine (mem_teamsToday dg "UNK").mpr ?_
      unfold allAbbrevs
      refine List.mem_flatMap.mpr ⟨g, hg, ?_⟩
      rw [← hub]
      exact List.mem_cons_self _ _
    exact List.count_eq_one_of_mem (keys_compute_nodup dg idx target ar) hmemU
  · intro dg idx target ar t ht
    rw [keys_compute_team_loads] at ht
    have hall := (mem_teamsToday dg t).mp ht
    unfold allAbbrevs at hall
    obtain ⟨g, hg, hmem⟩ := List.mem_flatMap.mp hall
    rcases List.mem_cons.mp hmem with rfl | hmem2
    · exact pyUpper_teamAbbrevOf _
    · rcases List.mem_cons.mp hmem2 with rfl | h0
      · exact pyUpper_teamAbbrevOf _
      · cases h0

/-- Witness for Claim C10 at a concrete input: a game with an absent away
team object yields exactly one `"UNK"` key. -/
theorem claim10_witness :
    teamAbbrevOf ((none : Option TeamObj).getD emptyTeamObj) = "UNK" ∧
      ((compute_team_loads
          [⟨none, some ⟨some "MTL", none, none, none⟩⟩] [] 0 none).map
        Prod.fst).count "UNK" = 1 :=
  ⟨claim10_unk_collapse_upper.1 none trivial,
    claim10_unk_collapse_upper.2.2.1
      [⟨none, some ⟨some "MTL", none, none, none⟩⟩] [] 0 none
      ⟨none, some ⟨some "MTL", none, none, none⟩⟩ (by decide) trivial⟩

/-- Claim C2: for every team in today's games, the `travel_km` field is the
unknown sentinel `none` exactly when no venue lookup is supplied, fewer
than 2 of the team's games lie in the trailing 7-day window, or fewer than
2 venue points resolve from them; otherwise it is a known numeric value. -/
theorem claim2_travel_unknown_iff (dg : List Game) (idx : ScheduleIndex)
    (target : Int) (ar : ArenaLookup) (t : String)
    (ht : t ∈ allAbbrevs dg) :
    (List.lookup t (compute_team_loads dg idx target ar)).map
        TeamLoad.travel_km = some none ↔
      (ar = none ∨ (gamesInWindow idx t (target - 6) target).length < 2 ∨
        (venuesInWindow idx ar t (target - 6) target).length < 2) := by
  have hmap : (List.lookup t (compute_team_loads dg idx target ar)).map
      TeamLoad.travel_km = some (travel_km_last_7_days idx ar target t) := by
    rw [lookup_compute_team_loads dg idx target ar t ht]
    rfl
  rw [hmap, Option.some_inj]
  exact travel_none_iff idx ar target t

/-- Witness for Claim C2 at a concrete input: no venue lookup at all makes
travel unknown. -/
theorem claim2_witness :
    (List.lookup "TOR" (compute_team_loads
        [⟨some ⟨some "TOR", none, none, none⟩,
          some ⟨some "MTL", none, none, none⟩⟩] [] 5 none)).map
      TeamLoad.travel_km = some none :=
  (claim2_travel_unknown_iff
    [⟨some ⟨some "TOR", none, none, none⟩,
      some ⟨some "MTL", none, none, none⟩⟩] [] 5 none "TOR"
    (by decide)).mpr (Or.inl rfl)

/-- Claim C1: for every team in today's games, when the venue lookup is
truthy and the trailing 7-day window holds at least 2 of the team's games
with at least 2 resolved venue points, the `travel_km` field equals the sum
of haversine distances (radius 6371 km) over each consecutive pair of
resolved venue points in chronological order (unresolvable venues skipped
by the `filterMap`), the sum is non-negative, and the sorted window is in
chronological order. -/
theorem claim1_travel_sum (dg : List Game) (idx : ScheduleIndex)
    (target : Int) (ar : ArenaLookup) (t : String)
    (htr : arenasTruthy ar = true)
    (hw : 2 ≤ (gamesInWindow idx t (target - 6) target).length)
    (hv : 2 ≤ (venuesInWindow idx ar t (target - 6) target).length)
    (ht : t ∈ allAbbrevs dg) :
    (List.lookup t (compute_team_loads dg idx target ar)).map
        TeamLoad.travel_km =
      some (some (legSum (venuesInWindow idx ar t (target - 6) target))) ∧
      0 ≤ legSum (venuesInWindow idx ar t (target - 6) target) ∧
      (sortedWindow idx t (target - 6) target).Pairwise
        (fun p q => p.1 ≤ q.1) := by
  refine ⟨?_, legSum_nonneg _, pairwise_sortedWindow idx t (target - 6) target⟩
  have hmap : (List.lookup t (compute_team_loads dg idx target ar)).map
      TeamLoad.travel_km = some (travel_km_last_7_days idx ar target t) := by
    rw [lookup_compute_team_loads dg idx target ar t ht]
    rfl
  rw [hmap, Option.some_inj]
  have h2 : ¬(gamesInWindow idx t (target - 6) target).length < 2 := by omega
  have h3 : ¬(venuesInWindow idx ar t (target - 6) target).length < 2 := by
    omega
  simp [travel_km_last_7_days, htr, h2, h3]

/-- Witness for Claim C1 at a concrete input: TOR plays at MTL on day 5 and
at home on day 7 (target day 10), with both arenas resolvable. -/
theorem claim1_witness :
    (List.lookup "TOR" (compute_team_loads
        [⟨some ⟨some "TOR", none, none, none⟩,
          some ⟨some "MTL", none, none, none⟩⟩]
        [(5, [⟨some ⟨some "TOR", none, none, none⟩,
              some ⟨some "MTL", none, none, none⟩⟩]),
         (7, [⟨some ⟨some "MTL", none, none, none⟩,
              some ⟨some "TOR", none, none, none⟩⟩])]
        10 (some [("TOR", (1, 2)), ("MTL", (3, 4))]))).map
        TeamLoad.travel_km =
      some (some (legSum (venuesInWindow
        [(5, [⟨some ⟨some "TOR", none, none, none⟩,
              some ⟨some "MTL", none, none, none⟩⟩]),
         (7, [⟨some ⟨some "MTL", none, none, none⟩,
              some ⟨some "TOR", none, none, none⟩⟩])]
        (some [("TOR", (1, 2)), ("MTL", (3, 4))]) "TOR" (10 - 6) 10))) ∧
      0 ≤ legSum (venuesInWindow
        [(5, [⟨some ⟨some "TOR", none, none, none⟩,
              some ⟨some "MTL", none, none, none⟩⟩]),
         (7, [⟨some ⟨some "MTL", none, none, none⟩,
              some ⟨some "TOR", none, none, none⟩⟩])]
        (some [("TOR", (1, 2)), ("MTL", (3, 4))]) "TOR" (10 - 6) 10) ∧
      (sortedWindow
        [(5, [⟨some ⟨some "TOR", none, none, none⟩,
              some ⟨some "MTL", none, none, none⟩⟩]),
         (7, [⟨some ⟨some "MTL", none, none, none⟩,
              some ⟨some "TOR", none, none, none⟩⟩])]
        "TOR" (10 - 6) 10).Pairwise (fun p q => p.1 ≤ q.1) :=
  claim1_travel_sum
    [⟨some ⟨some "TOR", none, none, none⟩,
      some ⟨some "MTL", none, none, none⟩⟩]
    [(5, [⟨some ⟨some "TOR", none, none, none⟩,
          some ⟨some "MTL", none, none, none⟩⟩]),
     (7, [⟨some ⟨some "MTL", none, none, none⟩,
          some ⟨some "TOR", none, none, none⟩⟩])]
    10 (some [("TOR", (1, 2)), ("MTL", (3, 4))]) "TOR"
    (by decide) (by decide) (by decide) (by decide)
